import Mathlib

/-!
Verification of the window-generator training driver (`Train_profile.py`).

The definitions below are a shallow embedding of the source file
`src/Train_profile.py`.  Archives (`.npz` files) are modelled as
association lists from chromosome identifier to array data; only the
information the program inspects (keys, array lengths, exclusion index
arrays) is retained.  Components that live in the `Modules` package
(`tf_utils.WindowGenerator`, `utils.merge_chroms`, `models`) are not part
of the provided sources; where a claim depends on them they are modelled
from the specification and marked as such in their doc comments.
-/

namespace TrainProfile

/-- The known model architectures: the keys of `model_dict`
(`Train_profile.py` lines 284-287). -/
def model_dict : List String := ["mnase_Etienne", "bassenji_Etienne"]

/-- Python's `format(n, "02d")` for a nonnegative integer: decimal digits,
zero-padded on the left to a minimum width of two. -/
def format02d (n : Nat) : String :=
  if n < 10 then "0" ++ Nat.repr n else Nat.repr n

/-- Python's `int(c)` restricted to nonnegative decimal numerals: `some`
of the value on a nonempty all-digit string, `none` (a `ValueError` in
Python) otherwise. -/
def parseNat? (s : String) : Option Nat :=
  if s.length ≠ 0 ∧ s.data.all (fun c => c.isDigit) then
    some (s.data.foldl (fun a c => 10 * a + (c.toNat - 48)) 0)
  else none

/-- The chromosome-identifier rewriting of `parsing`
(`Train_profile.py` lines 231-237): with genome stem `"W303"` every
identifier `c` becomes `"chr" + format(int(c), "02d")` (failing like
Python's `int` on a non-numeral); with stem `"W303_Mmmyco"` every
identifier other than `"Mmmyco"` is prefixed with `"chr"`; any other stem
leaves the identifiers unchanged. -/
def rewriteChromIds (genome_name : String) (chroms : List String) :
    Except String (List String) :=
  if genome_name = "W303" then
    chroms.mapM (fun c =>
      match parseNat? c with
      | some n => Except.ok ("chr" ++ format02d n)
      | none => Except.error ("invalid literal for int(): " ++ c))
  else if genome_name = "W303_Mmmyco" then
    Except.ok (chroms.map (fun c => if c = "Mmmyco" then c else "chr" ++ c))
  else
    Except.ok chroms

/-- An `.npz` archive of which only per-array lengths matter (genome and
labels archives): identifier paired with array length. -/
def LenArchive : Type := List (String × Nat)

/-- The keys of an archive (`keys()` on a numpy `NpzFile`). -/
def archiveKeys (a : LenArchive) : List String := a.map Prod.fst

/-- Length of the array stored under key `k` (`len(a[k])`); `0` when the
key is absent (the program only evaluates this after checking
membership). -/
def archiveLen (a : LenArchive) (k : String) : Nat :=
  (List.lookup k a).getD 0

/-- The membership validation loop of `parsing`
(`Train_profile.py` lines 240-245): for each requested identifier in
order, exit with an error unless it is a key of both the genome and the
labels archive. -/
def checkChromIds (chroms : List String) (gkeys skeys : List String) :
    Except String Unit :=
  match chroms with
  | [] => Except.ok ()
  | c :: rest =>
    if gkeys.contains c ∧ skeys.contains c then
      checkChromIds rest gkeys skeys
    else
      Except.error (c ++ " is not a valid chromosome id in the genome and labels archives")

/-- The `remove_indices` validation loop of `parsing`
(`Train_profile.py` lines 246-253): for each requested identifier in
order, exit with an error unless it is a key of the exclusion archive. -/
def checkRemoveIds (chroms : List String) (rkeys : List String) :
    Except String Unit :=
  match chroms with
  | [] => Except.ok ()
  | c :: rest =>
    if rkeys.contains c then
      checkRemoveIds rest rkeys
    else
      Except.error (c ++ " is not a valid chromosome id in the remove_indices archive")

/-- The command-line arguments after argparse, as far as the embedded
program inspects them.  `genome_stem` is `Path(args.genome).stem`. -/
structure RawArgs where
  architecture : String
  genome_stem : String
  chrom_train : List String
  chrom_valid : List String
  strand : String
  winsize : Nat
  head_interval : Option Nat
  batch_size : Nat
  same_samples : Bool
  max_train : Nat
  max_valid : Nat
  balance : Option String
  n_classes : Nat
  remove0s : Bool
  removeNs : Bool
  seed : Option Nat
deriving DecidableEq

/-- An exclusion archive: one array of integer indices per chromosome. -/
def ExclArchive : Type := List (String × List Nat)

/-- The validation part of `parsing` (`Train_profile.py` lines 231-254):
rewrite the chromosome identifiers according to the genome stem, check
that every requested identifier is a key of both the genome and labels
archives, and, when an exclusion archive is supplied, that it too has
every requested identifier.  Returns the rewritten training and
validation identifier lists. -/
def parsing (a : RawArgs) (g s : LenArchive) (r : Option ExclArchive) :
    Except String (List String × List String) := do
  let ct ← rewriteChromIds a.genome_stem a.chrom_train
  let cv ← rewriteChromIds a.genome_stem a.chrom_valid
  let _ ← checkChromIds (ct ++ cv) (archiveKeys g) (archiveKeys s)
  match r with
  | none => pure (ct, cv)
  | some ra => do
    let _ ← checkRemoveIds (ct ++ cv) (ra.map Prod.fst)
    pure (ct, cv)

/-- The exclusion-index remapping loop of the main script
(`Train_profile.py` lines 314-323): iterate over the chromosomes in
order with a running offset `total_len`, shifting chromosome `k`'s local
exclusion indices `f[k]` by the current offset and then advancing the
offset by `len(s[k]) + 1`. -/
def remapIndicesAux (f : String → List Nat) (s : String → Nat) :
    List String → Nat → List Nat
  | [], _ => []
  | k :: ks, total_len =>
    (f k).map (fun x => x + total_len) ++ remapIndicesAux f s ks (total_len + (s k + 1))

/-- The quantity `remove_indices_train` (resp. `_valid`) of the main script: the
concatenation of all remapped exclusion indices, starting from offset
`0`.  `f` gives each chromosome's local exclusion indices, `s` the label
array length of each chromosome. -/
def remove_indices_merged (chroms : List String) (f : String → List Nat)
    (s : String → Nat) : List Nat :=
  remapIndicesAux f s chroms 0

/-- The cumulative offset of chromosome `i` in the merged coordinate
system claimed by the specification: the sum of the label-array lengths
of chromosomes `0..i-1` plus `i` separator slots. -/
def chromOffset (chroms : List String) (s : String → Nat) (i : Nat) : Nat :=
  (((chroms.take i).map s).sum) + i

theorem remapIndicesAux_eq (f : String → List Nat) (s : String → Nat) :
    ∀ (chroms : List String) (t : Nat),
      remapIndicesAux f s chroms t =
        ((List.range chroms.length).map
          (fun i => (f (chroms.getD i "")).map
            (fun x => x + (t + chromOffset chroms s i)))).flatten
  | [], _ => by simp [remapIndicesAux]
  | k :: ks, t => by
    rw [remapIndicesAux, remapIndicesAux_eq f s ks (t + (s k + 1))]
    simp only [List.length_cons, List.range_succ_eq_map, List.map_cons,
      List.flatten_cons, List.map_map, chromOffset]
    congr 1
    congr 1
    refine List.map_congr_left ?_
    intro i _
    simp only [Function.comp_apply, List.getD_cons_succ,
      List.take_succ_cons, List.map_cons, List.sum_cons]
    refine List.map_congr_left ?_
    intro x _
    omega

/-- C1: for every ordered chromosome list and every exclusion archive,
the merged exclusion list is exactly the concatenation, over chromosomes
`i` in order, of chromosome `i`'s local indices each shifted by
`chromOffset chroms s i`, i.e. the sum of the label-array lengths of
chromosomes `0..i-1` plus `i` separator slots (one per preceding
chromosome). -/
theorem remove_indices_offset_correct (chroms : List String)
    (f : String → List Nat) (s : String → Nat) :
    remove_indices_merged chroms f s =
      ((List.range chroms.length).map
        (fun i => (f (chroms.getD i "")).map
          (fun x => x + chromOffset chroms s i))).flatten := by
  rw [remove_indices_merged, remapIndicesAux_eq]
  simp

/-- The arguments with which a `tf_utils.WindowGenerator` is constructed.
An `Option` field records whether the keyword argument was passed at the
call site: `none` means the argument was omitted, so the generator's own
default applies.  (`balance` is doubly optional: `none` = omitted;
`some b` = passed the value `b` of `args.balance`, itself an
`Option String` since argparse defaults it to `None`.) -/
structure WindowGeneratorArgs where
  winsize : Nat
  batch_size : Nat
  max_data : Nat
  same_samples : Bool
  balance : Option (Option String)
  n_classes : Option Nat
  strand : String
  head_interval : Option Nat
  remove0s : Bool
  removeNs : Bool
  remove_indices : Option (List Nat)
  seed : Option (Option Nat)
deriving DecidableEq

/-- The construction of `generator_train`
(`Train_profile.py` lines 328-343): every sampling parameter comes from
the command line, including `same_samples`, `balance`, `n_classes` and
`seed`. -/
def generator_train_args (a : RawArgs) (rit : Option (List Nat)) :
    WindowGeneratorArgs :=
  { winsize := a.winsize
    batch_size := a.batch_size
    max_data := a.max_train
    same_samples := a.same_samples
    balance := some a.balance
    n_classes := some a.n_classes
    strand := a.strand
    head_interval := a.head_interval
    remove0s := a.remove0s
    removeNs := a.removeNs
    remove_indices := rit
    seed := some a.seed }

/-- The construction of `generator_valid`
(`Train_profile.py` lines 344-357): `same_samples` is the literal
`True`, `seed` the literal `0`, and the `balance` and `n_classes`
keyword arguments are omitted. -/
def generator_valid_args (a : RawArgs) (riv : Option (List Nat)) :
    WindowGeneratorArgs :=
  { winsize := a.winsize
    batch_size := a.batch_size
    max_data := a.max_valid
    same_samples := true
    balance := none
    n_classes := none
    strand := a.strand
    head_interval := a.head_interval
    remove0s := a.remove0s
    removeNs := a.removeNs
    remove_indices := riv
    seed := some (some 0) }

/-- Modelled from the spec: §4.3 of the specification states that the
class balancer is "Only active when a balancing mode is requested
('global' or 'batch'); absent when unset (uniform sampling)" — the body
of `tf_utils.WindowGenerator` is not among the provided sources, so
uniformity is characterised by the `balance` argument being omitted or
`None`. -/
def samplingIsUniform (w : WindowGeneratorArgs) : Prop :=
  w.balance = none ∨ w.balance = some none

/-- C2: the validation generator is always constructed with
`same_samples=True` and `seed=0`, whatever value the training run's
`--seed` and `--same_samples` options take; hence two runs that differ
only in those training options construct validation generators with
identical parameters. -/
theorem generator_valid_fixed_seed (a : RawArgs) (riv : Option (List Nat))
    (s1 s2 : Option Nat) (ss1 ss2 : Bool) :
    (generator_valid_args a riv).same_samples = true ∧
    (generator_valid_args a riv).seed = some (some 0) ∧
    generator_valid_args { a with seed := s1, same_samples := ss1 } riv =
      generator_valid_args { a with seed := s2, same_samples := ss2 } riv := by
  refine ⟨rfl, rfl, ?_⟩
  simp [generator_valid_args]

/-- C9: the validation generator is constructed with the `balance` and
`n_classes` keyword arguments omitted, so validation sampling is uniform
(unweighted) whatever `--balance` and `--n_classes` were given for
training. -/
theorem generator_valid_unweighted (a : RawArgs) (riv : Option (List Nat)) :
    (generator_valid_args a riv).balance = none ∧
    (generator_valid_args a riv).n_classes = none ∧
    samplingIsUniform (generator_valid_args a riv) :=
  ⟨rfl, rfl, Or.inl rfl⟩

/-- The observable stages of the main script, in program order:
argument validation succeeded (line 260), the model was built
(line 288), the chromosome data was loaded (lines 307-310), the window
generators were constructed (lines 328-357), and a batch was produced
(consumed by `model.fit`, line 385). -/
inductive Event where
  | argsValidated : Event
  | modelBuilt : Event
  | dataLoaded : Event
  | generatorsBuilt : Event
  | batchProduced : Event
deriving DecidableEq

/-- The outcome of a successful run up to the first batch: the
parameters of the two generators. -/
structure MainResult where
  train_args : WindowGeneratorArgs
  valid_args : WindowGeneratorArgs
deriving DecidableEq

/-- Modelled from the spec: §7 of the specification lists "mismatched
array lengths between sequence and label for one chromosome" among the
configuration errors that are "fatal at construction, reported
immediately, never retried".  The construction code
(`tf_utils.WindowGenerator` and `utils.merge_chroms` in the `Modules`
package) is not among the provided sources, so its per-chromosome length
validation is modelled here: each requested chromosome's sequence-array
length must equal its label-array length. -/
def constructionLengthCheck (chroms : List String) (g s : LenArchive) :
    Except String Unit :=
  match chroms with
  | [] => Except.ok ()
  | c :: rest =>
    if archiveLen g c = archiveLen s c then
      constructionLengthCheck rest g s
    else
      Except.error (c ++ " has mismatched sequence and label array lengths")

/-- The local exclusion indices of chromosome `k` in an exclusion
archive (`f[k]` at `Train_profile.py` line 317). -/
def exclIndices (ra : ExclArchive) (k : String) : List Nat :=
  (List.lookup k ra).getD []

/-- The main script (`Train_profile.py` lines 257-392) up to the first
batch, as a pure function from the parsed arguments and the three
archives to the list of completed stages and either a fatal error or the
constructed generator parameters.  The stage order follows the source:
argument validation (`parsing`), model construction (the `model_dict`
lookup, a `KeyError` on an unknown architecture), data loading
(`merge_chroms`), exclusion-index remapping, generator construction
(with the spec-modelled length validation), then batch production. -/
def mainProgram (a : RawArgs) (g s : LenArchive) (r : Option ExclArchive) :
    List Event × Except String MainResult :=
  match parsing a g s r with
  | Except.error e => ([], Except.error e)
  | Except.ok (ct, cv) =>
    if model_dict.contains a.architecture then
      let rit := r.map (fun ra =>
        remove_indices_merged ct (exclIndices ra) (archiveLen s))
      let riv := r.map (fun ra =>
        remove_indices_merged cv (exclIndices ra) (archiveLen s))
      match constructionLengthCheck (ct ++ cv) g s with
      | Except.error e =>
        ([Event.argsValidated, Event.modelBuilt, Event.dataLoaded], Except.error e)
      | Except.ok _ =>
        ([Event.argsValidated, Event.modelBuilt, Event.dataLoaded,
          Event.generatorsBuilt, Event.batchProduced],
         Except.ok
           { train_args := generator_train_args a rit
             valid_args := generator_valid_args a riv })
    else
      ([Event.argsValidated], Except.error ("KeyError: " ++ a.architecture))

theorem checkChromIds_error_of_missing {chroms gkeys skeys : List String}
    {c : String} (hc : c ∈ chroms)
    (habs : ¬(c ∈ gkeys ∧ c ∈ skeys)) :
    ∃ e, checkChromIds chroms gkeys skeys = Except.error e := by
  induction chroms with
  | nil => cases hc
  | cons d rest ih =>
    rw [checkChromIds]
    split
    case isTrue hd =>
      rcases List.mem_cons.mp hc with hcd | hcr
      · exact absurd ⟨List.elem_iff.mp (hcd ▸ hd.1),
          List.elem_iff.mp (hcd ▸ hd.2)⟩ habs
      · exact ih hcr
    case isFalse hd => exact ⟨_, rfl⟩

theorem checkRemoveIds_error_of_missing {chroms rkeys : List String}
    {c : String} (hc : c ∈ chroms) (habs : c ∉ rkeys) :
    ∃ e, checkRemoveIds chroms rkeys = Except.error e := by
  induction chroms with
  | nil => cases hc
  | cons d rest ih =>
    rw [checkRemoveIds]
    split
    case isTrue hd =>
      rcases List.mem_cons.mp hc with hcd | hcr
      · exact absurd (List.elem_iff.mp (hcd ▸ hd)) habs
      · exact ih hcr
    case isFalse hd => exact ⟨_, rfl⟩

theorem constructionLengthCheck_error_of_mismatch {chroms : List String}
    {g s : LenArchive} {c : String} (hc : c ∈ chroms)
    (hlen : archiveLen g c ≠ archiveLen s c) :
    ∃ e, constructionLengthCheck chroms g s = Except.error e := by
  induction chroms with
  | nil => cases hc
  | cons d rest ih =>
    rw [constructionLengthCheck]
    split
    case isTrue hd =>
      rcases List.mem_cons.mp hc with hcd | hcr
      · exact absurd (hcd ▸ hd) hlen
      · exact ih hcr
    case isFalse hd => exact ⟨_, rfl⟩

theorem parsing_error_of_missing_chrom {a : RawArgs} {g s : LenArchive}
    {r : Option ExclArchive} {ct cv : List String} {c : String}
    (hct : rewriteChromIds a.genome_stem a.chrom_train = Except.ok ct)
    (hcv : rewriteChromIds a.genome_stem a.chrom_valid = Except.ok cv)
    (hc : c ∈ ct ++ cv)
    (habs : ¬(c ∈ archiveKeys g ∧ c ∈ archiveKeys s)) :
    ∃ e, parsing a g s r = Except.error e := by
  obtain ⟨e, he⟩ := checkChromIds_error_of_missing hc habs
  refine ⟨e, ?_⟩
  simp [parsing, bind, Except.bind, hct, hcv, he]

theorem parsing_ok_shape (a : RawArgs) (g s : LenArchive)
    (r : Option ExclArchive) {ct cv : List String}
    (hct : rewriteChromIds a.genome_stem a.chrom_train = Except.ok ct)
    (hcv : rewriteChromIds a.genome_stem a.chrom_valid = Except.ok cv) :
    (∃ e, parsing a g s r = Except.error e) ∨
      parsing a g s r = Except.ok (ct, cv) := by
  simp only [parsing, bind, Except.bind, hct, hcv]
  cases checkChromIds (ct ++ cv) (archiveKeys g) (archiveKeys s) with
  | error e => exact Or.inl ⟨e, rfl⟩
  | ok u =>
    cases r with
    | none => exact Or.inr rfl
    | some ra =>
      cases hcr : checkRemoveIds (ct ++ cv) (ra.map Prod.fst) with
      | error e => exact Or.inl ⟨e, by simp [Functor.map, Except.map, hcr]⟩
      | ok v =>
        exact Or.inr (by simp [Functor.map, Except.map, hcr, pure, Except.pure])

theorem parsing_error_of_missing_remove {a : RawArgs} {g s : LenArchive}
    {ra : ExclArchive} {ct cv : List String} {c : String}
    (hct : rewriteChromIds a.genome_stem a.chrom_train = Except.ok ct)
    (hcv : rewriteChromIds a.genome_stem a.chrom_valid = Except.ok cv)
    (hc : c ∈ ct ++ cv) (habs : c ∉ ra.map Prod.fst) :
    ∃ e, parsing a g s (some ra) = Except.error e := by
  obtain ⟨e, he⟩ := checkRemoveIds_error_of_missing hc habs
  simp only [parsing, bind, Except.bind, hct, hcv]
  cases checkChromIds (ct ++ cv) (archiveKeys g) (archiveKeys s) with
  | error e2 => exact ⟨e2, rfl⟩
  | ok u => exact ⟨e, by simp [Functor.map, Except.map, he]⟩

/-- C3: a requested training or validation chromosome identifier that is
absent from the genome archive or from the labels archive makes the
program fail with a configuration error already during argument
validation: the run produces an error, no data is loaded, and no batch
is produced. -/
theorem absent_chrom_fails_before_load (a : RawArgs) (g s : LenArchive)
    (r : Option ExclArchive) (ct cv : List String) (c : String)
    (hct : rewriteChromIds a.genome_stem a.chrom_train = Except.ok ct)
    (hcv : rewriteChromIds a.genome_stem a.chrom_valid = Except.ok cv)
    (hc : c ∈ ct ++ cv)
    (habs : ¬(c ∈ archiveKeys g ∧ c ∈ archiveKeys s)) :
    (∃ e, (mainProgram a g s r).2 = Except.error e) ∧
      Event.dataLoaded ∉ (mainProgram a g s r).1 ∧
      Event.batchProduced ∉ (mainProgram a g s r).1 := by
  obtain ⟨e, he⟩ := parsing_error_of_missing_chrom (r := r) hct hcv hc habs
  simp [mainProgram, he]

/-- Closed instance of C3: with genome archive holding only `chrII` and
labels archive holding `chrI` and `chrII`, requesting training
chromosome `chrI` fails during validation, with no data loaded and no
batch produced. -/
theorem absent_chrom_fails_before_load_witness :
    (∃ e, (mainProgram
        { architecture := "mnase_Etienne", genome_stem := "genome",
          chrom_train := ["chrI"], chrom_valid := ["chrII"],
          strand := "both", winsize := 2001, head_interval := none,
          batch_size := 1024, same_samples := false, max_train := 4194304,
          max_valid := 1048576, balance := none, n_classes := 500,
          remove0s := false, removeNs := false, seed := none }
        [("chrII", 5)] [("chrI", 5), ("chrII", 5)] none).2 = Except.error e) ∧
      Event.dataLoaded ∉ (mainProgram
        { architecture := "mnase_Etienne", genome_stem := "genome",
          chrom_train := ["chrI"], chrom_valid := ["chrII"],
          strand := "both", winsize := 2001, head_interval := none,
          batch_size := 1024, same_samples := false, max_train := 4194304,
          max_valid := 1048576, balance := none, n_classes := 500,
          remove0s := false, removeNs := false, seed := none }
        [("chrII", 5)] [("chrI", 5), ("chrII", 5)] none).1 ∧
      Event.batchProduced ∉ (mainProgram
        { architecture := "mnase_Etienne", genome_stem := "genome",
          chrom_train := ["chrI"], chrom_valid := ["chrII"],
          strand := "both", winsize := 2001, head_interval := none,
          batch_size := 1024, same_samples := false, max_train := 4194304,
          max_valid := 1048576, balance := none, n_classes := 500,
          remove0s := false, removeNs := false, seed := none }
        [("chrII", 5)] [("chrI", 5), ("chrII", 5)] none).1 :=
  absent_chrom_fails_before_load _ _ _ _ _ _ "chrI" rfl rfl (by decide)
    (by decide)

/-- C5: an architecture name that is not a key of `model_dict` makes the
program fail (the lookup `model_dict[args.architecture]` raises a
`KeyError`) before any data is loaded and before any batch is
produced. -/
theorem unknown_architecture_fails_before_batch (a : RawArgs)
    (g s : LenArchive) (r : Option ExclArchive)
    (h : a.architecture ∉ model_dict) :
    (∃ e, (mainProgram a g s r).2 = Except.error e) ∧
      Event.dataLoaded ∉ (mainProgram a g s r).1 ∧
      Event.batchProduced ∉ (mainProgram a g s r).1 := by
  cases hp : parsing a g s r with
  | error e => simp [mainProgram, hp]
  | ok p =>
    cases p with
    | mk ct cv => simp [mainProgram, hp, h]

/-- Closed instance of C5: requesting architecture `"resnet"` with an
otherwise consistent configuration fails with no data loaded and no
batch produced. -/
theorem unknown_architecture_witness :
    (∃ e, (mainProgram
        { architecture := "resnet", genome_stem := "genome",
          chrom_train := ["chrI"], chrom_valid := ["chrII"],
          strand := "both", winsize := 2001, head_interval := none,
          batch_size := 1024, same_samples := false, max_train := 4194304,
          max_valid := 1048576, balance := none, n_classes := 500,
          remove0s := false, removeNs := false, seed := none }
        [("chrI", 5), ("chrII", 5)] [("chrI", 5), ("chrII", 5)] none).2 =
          Except.error e) ∧
      Event.dataLoaded ∉ (mainProgram
        { architecture := "resnet", genome_stem := "genome",
          chrom_train := ["chrI"], chrom_valid := ["chrII"],
          strand := "both", winsize := 2001, head_interval := none,
          batch_size := 1024, same_samples := false, max_train := 4194304,
          max_valid := 1048576, balance := none, n_classes := 500,
          remove0s := false, removeNs := false, seed := none }
        [("chrI", 5), ("chrII", 5)] [("chrI", 5), ("chrII", 5)] none).1 ∧
      Event.batchProduced ∉ (mainProgram
        { architecture := "resnet", genome_stem := "genome",
          chrom_train := ["chrI"], chrom_valid := ["chrII"],
          strand := "both", winsize := 2001, head_interval := none,
          batch_size := 1024, same_samples := false, max_train := 4194304,
          max_valid := 1048576, balance := none, n_classes := 500,
          remove0s := false, removeNs := false, seed := none }
        [("chrI", 5), ("chrII", 5)] [("chrI", 5), ("chrII", 5)] none).1 :=
  unknown_architecture_fails_before_batch _ _ _ _ (by decide)

/-- C4: a chromosome requested for training or validation whose
sequence-array length differs from its label-array length makes the run
fail before any batch is produced (with the construction-time length
validation modelled from the specification, since the
`WindowGenerator` sources are not provided). -/
theorem mismatched_lengths_fail_before_batch (a : RawArgs)
    (g s : LenArchive) (r : Option ExclArchive) (ct cv : List String)
    (c : String)
    (hct : rewriteChromIds a.genome_stem a.chrom_train = Except.ok ct)
    (hcv : rewriteChromIds a.genome_stem a.chrom_valid = Except.ok cv)
    (hc : c ∈ ct ++ cv)
    (hlen : archiveLen g c ≠ archiveLen s c) :
    (∃ e, (mainProgram a g s r).2 = Except.error e) ∧
      Event.batchProduced ∉ (mainProgram a g s r).1 := by
  rcases parsing_ok_shape a g s r hct hcv with ⟨e, hp⟩ | hp
  · simp [mainProgram, hp]
  · obtain ⟨e, he⟩ := constructionLengthCheck_error_of_mismatch
      (g := g) (s := s) hc hlen
    by_cases hmem : a.architecture ∈ model_dict
    · simp [mainProgram, hp, hmem, he]
    · simp [mainProgram, hp, hmem]

/-- Closed instance of C4: `chrI` stored with sequence length 7 but
label length 5 makes the run fail with no batch produced. -/
theorem mismatched_lengths_witness :
    (∃ e, (mainProgram
        { architecture := "mnase_Etienne", genome_stem := "genome",
          chrom_train := ["chrI"], chrom_valid := ["chrII"],
          strand := "both", winsize := 2001, head_interval := none,
          batch_size := 1024, same_samples := false, max_train := 4194304,
          max_valid := 1048576, balance := none, n_classes := 500,
          remove0s := false, removeNs := false, seed := none }
        [("chrI", 7), ("chrII", 5)] [("chrI", 5), ("chrII", 5)] none).2 =
          Except.error e) ∧
      Event.batchProduced ∉ (mainProgram
        { architecture := "mnase_Etienne", genome_stem := "genome",
          chrom_train := ["chrI"], chrom_valid := ["chrII"],
          strand := "both", winsize := 2001, head_interval := none,
          batch_size := 1024, same_samples := false, max_train := 4194304,
          max_valid := 1048576, balance := none, n_classes := 500,
          remove0s := false, removeNs := false, seed := none }
        [("chrI", 7), ("chrII", 5)] [("chrI", 5), ("chrII", 5)] none).1 :=
  mismatched_lengths_fail_before_batch _ _ _ _ _ _ "chrI" rfl rfl
    (by decide) (by decide)

/-- C10: when an exclusion archive is supplied that lacks an array for
some requested training or validation chromosome, the program fails
during argument validation: the run errors, no data is loaded and no
batch is produced. -/
theorem remove_indices_missing_fails_before_load (a : RawArgs)
    (g s : LenArchive) (ra : ExclArchive) (ct cv : List String) (c : String)
    (hct : rewriteChromIds a.genome_stem a.chrom_train = Except.ok ct)
    (hcv : rewriteChromIds a.genome_stem a.chrom_valid = Except.ok cv)
    (hc : c ∈ ct ++ cv) (habs : c ∉ ra.map Prod.fst) :
    (∃ e, (mainProgram a g s (some ra)).2 = Except.error e) ∧
      Event.dataLoaded ∉ (mainProgram a g s (some ra)).1 ∧
      Event.batchProduced ∉ (mainProgram a g s (some ra)).1 := by
  obtain ⟨e, he⟩ := parsing_error_of_missing_remove (g := g) (s := s)
    hct hcv hc habs
  simp [mainProgram, he]

/-- Closed instance of C10: an exclusion archive holding only `chrII`
while `chrI` is requested for training fails during validation, with no
data loaded and no batch produced. -/
theorem remove_indices_missing_witness :
    (∃ e, (mainProgram
        { architecture := "mnase_Etienne", genome_stem := "genome",
          chrom_train := ["chrI"], chrom_valid := ["chrII"],
          strand := "both", winsize := 2001, head_interval := none,
          batch_size := 1024, same_samples := false, max_train := 4194304,
          max_valid := 1048576, balance := none, n_classes := 500,
          remove0s := false, removeNs := false, seed := none }
        [("chrI", 5), ("chrII", 5)] [("chrI", 5), ("chrII", 5)]
        (some [("chrII", [0, 2])])).2 = Except.error e) ∧
      Event.dataLoaded ∉ (mainProgram
        { architecture := "mnase_Etienne", genome_stem := "genome",
          chrom_train := ["chrI"], chrom_valid := ["chrII"],
          strand := "both", winsize := 2001, head_interval := none,
          batch_size := 1024, same_samples := false, max_train := 4194304,
          max_valid := 1048576, balance := none, n_classes := 500,
          remove0s := false, removeNs := false, seed := none }
        [("chrI", 5), ("chrII", 5)] [("chrI", 5), ("chrII", 5)]
        (some [("chrII", [0, 2])])).1 ∧
      Event.batchProduced ∉ (mainProgram
        { architecture := "mnase_Etienne", genome_stem := "genome",
          chrom_train := ["chrI"], chrom_valid := ["chrII"],
          strand := "both", winsize := 2001, head_interval := none,
          batch_size := 1024, same_samples := false, max_train := 4194304,
          max_valid := 1048576, balance := none, n_classes := 500,
          remove0s := false, removeNs := false, seed := none }
        [("chrI", 5), ("chrII", 5)] [("chrI", 5), ("chrII", 5)]
        (some [("chrII", [0, 2])])).1 :=
  remove_indices_missing_fails_before_load _ _ _ _ _ _ "chrI" rfl rfl
    (by decide) (by decide)

theorem mapM_rewrite_ok : ∀ {l l' : List String},
    l.mapM (fun c =>
      match parseNat? c with
      | some n => Except.ok ("chr" ++ format02d n)
      | none => Except.error ("invalid literal for int(): " ++ c)) = Except.ok l' →
    l' = l.map (fun c => "chr" ++ format02d ((parseNat? c).getD 0)) := by
  intro l
  induction l with
  | nil =>
    intro l' h
    simp only [List.mapM_nil, pure, Except.pure, Except.ok.injEq] at h
    simp [← h]
  | cons c cs ih =>
    intro l' h
    simp only [List.mapM_cons, bind, Except.bind, pure, Except.pure] at h
    cases hp : parseNat? c with
    | none => rw [hp] at h; cases h
    | some n =>
      rw [hp] at h
      cases hcs : cs.mapM (fun c =>
          match parseNat? c with
          | some n => Except.ok ("chr" ++ format02d n)
          | none => Except.error ("invalid literal for int(): " ++ c)) with
      | error e => rw [hcs] at h; cases h
      | ok xs =>
        rw [hcs] at h
        cases h
        simp [ih hcs, hp]

theorem checkChromIds_ok_mem : ∀ {chroms gkeys skeys : List String},
    checkChromIds chroms gkeys skeys = Except.ok () →
    ∀ c ∈ chroms, c ∈ gkeys ∧ c ∈ skeys := by
  intro chroms
  induction chroms with
  | nil => intro _ _ _ c hc; cases hc
  | cons d rest ih =>
    intro gkeys skeys h c hc
    rw [checkChromIds] at h
    split at h
    case isTrue hd =>
      rcases List.mem_cons.mp hc with hcd | hcr
      · exact ⟨List.elem_iff.mp (hcd ▸ hd.1), List.elem_iff.mp (hcd ▸ hd.2)⟩
      · exact ih h c hcr
    case isFalse hd => cases h

theorem parsing_ok_inv {a : RawArgs} {g s : LenArchive}
    {r : Option ExclArchive} {ct cv : List String}
    (hok : parsing a g s r = Except.ok (ct, cv)) :
    rewriteChromIds a.genome_stem a.chrom_train = Except.ok ct ∧
    rewriteChromIds a.genome_stem a.chrom_valid = Except.ok cv ∧
    checkChromIds (ct ++ cv) (archiveKeys g) (archiveKeys s) =
      Except.ok () := by
  simp only [parsing, bind, Except.bind] at hok
  cases h1 : rewriteChromIds a.genome_stem a.chrom_train with
  | error e => rw [h1] at hok; cases hok
  | ok ct0 =>
    rw [h1] at hok
    simp only [] at hok
    cases h2 : rewriteChromIds a.genome_stem a.chrom_valid with
    | error e => rw [h2] at hok; cases hok
    | ok cv0 =>
      rw [h2] at hok
      simp only [] at hok
      cases h3 : checkChromIds (ct0 ++ cv0) (archiveKeys g) (archiveKeys s) with
      | error e => rw [h3] at hok; cases hok
      | ok u =>
        rw [h3] at hok
        simp only [] at hok
        cases u
        have hcc : ct0 = ct ∧ cv0 = cv := by
          cases r with
          | none =>
            simp only [pure, Except.pure, Except.ok.injEq, Prod.mk.injEq] at hok
            exact hok
          | some ra =>
            simp only [] at hok
            cases h4 : checkRemoveIds (ct0 ++ cv0) (ra.map Prod.fst) with
            | error e =>
              rw [h4] at hok
              simp [Functor.map, Except.map] at hok
            | ok v =>
              rw [h4] at hok
              simp only [pure, Except.pure, Except.ok.injEq,
                Prod.mk.injEq] at hok
              exact hok
        obtain ⟨rfl, rfl⟩ := hcc
        exact ⟨rfl, rfl, h3⟩

/-- C8: when `parsing` succeeds, the identifier lists it returns — the
ones every later membership check and data access uses — are the
rewritten ones: with genome stem `"W303"` each identifier `c` has become
`"chr" + format(int(c), "02d")` (zero-padded to two digits), with stem
`"W303_Mmmyco"` each identifier except `"Mmmyco"` has been prefixed with
`"chr"`, and the archive-membership validation was performed on these
rewritten identifiers. -/
theorem stem_rewrite_before_validation (a : RawArgs) (g s : LenArchive)
    (r : Option ExclArchive) (ct cv : List String)
    (hok : parsing a g s r = Except.ok (ct, cv)) :
    (a.genome_stem = "W303" →
      ct = a.chrom_train.map
          (fun c => "chr" ++ format02d ((parseNat? c).getD 0)) ∧
      cv = a.chrom_valid.map
          (fun c => "chr" ++ format02d ((parseNat? c).getD 0))) ∧
    (a.genome_stem = "W303_Mmmyco" →
      ct = a.chrom_train.map (fun c => if c = "Mmmyco" then c else "chr" ++ c) ∧
      cv = a.chrom_valid.map (fun c => if c = "Mmmyco" then c else "chr" ++ c)) ∧
    (∀ c ∈ ct ++ cv, c ∈ archiveKeys g ∧ c ∈ archiveKeys s) := by
  obtain ⟨h1, h2, h3⟩ := parsing_ok_inv hok
  refine ⟨?_, ?_, checkChromIds_ok_mem h3⟩
  · intro hw
    rw [hw] at h1 h2
    rw [rewriteChromIds] at h1 h2
    simp only [if_pos rfl] at h1 h2
    exact ⟨mapM_rewrite_ok h1, mapM_rewrite_ok h2⟩
  · intro hw
    rw [hw] at h1 h2
    simp only [rewriteChromIds, String.reduceEq, reduceIte,
      Except.ok.injEq] at h1 h2
    exact ⟨h1.symm, h2.symm⟩

/-- Closed instance of C8: with genome stem `"W303"`, requested training
chromosome `"1"` and validation chromosome `"12"`, `parsing` succeeds on
archives keyed `chr01`/`chr12`, returning the rewritten identifiers on
which membership was validated. -/
theorem stem_rewrite_witness :
    (("W303" : String) = "W303" →
      ["chr01"] = ["1"].map (fun c => "chr" ++ format02d ((parseNat? c).getD 0)) ∧
      ["chr12"] = ["12"].map (fun c => "chr" ++ format02d ((parseNat? c).getD 0))) ∧
    (("W303" : String) = "W303_Mmmyco" →
      ["chr01"] = ["1"].map (fun c => if c = "Mmmyco" then c else "chr" ++ c) ∧
      ["chr12"] = ["12"].map (fun c => if c = "Mmmyco" then c else "chr" ++ c)) ∧
    (∀ c ∈ ["chr01"] ++ ["chr12"],
      c ∈ archiveKeys [("chr01", 5), ("chr12", 5)] ∧
      c ∈ archiveKeys [("chr01", 5), ("chr12", 5)]) :=
  stem_rewrite_before_validation
    { architecture := "mnase_Etienne", genome_stem := "W303",
      chrom_train := ["1"], chrom_valid := ["12"],
      strand := "both", winsize := 2001, head_interval := none,
      batch_size := 1024, same_samples := false, max_train := 4194304,
      max_valid := 1048576, balance := none, n_classes := 500,
      remove0s := false, removeNs := false, seed := none }
    [("chr01", 5), ("chr12", 5)] [("chr01", 5), ("chr12", 5)] none
    ["chr01"] ["chr12"] (by rfl)

/-- Modelled from the spec: §4.4 requires that "a fixed seed must yield
an identical sequence of drawn positions across runs"; the
`tf_utils.WindowGenerator` sources are not provided, so its random
number generator is modelled as a deterministic linear congruential
step seeded from the generator's `seed` argument. -/
def lcgStep (s : Nat) : Nat := (1103515245 * s + 12345) % 2147483648

/-- Modelled from the spec: §4.4 states that with `same_samples=False`
the sampler "partitions the eligible set into epoch-sized chunks without
replacement until exhausted, then reshuffles and starts a new cycle".
The reshuffle is modelled as a seeded Fisher-Yates style permutation of
the eligible set, defined with an explicit fuel equal to the list
length. -/
def shuffleFuel : Nat → Nat → List Nat → List Nat
  | 0, _, _ => []
  | fuel + 1, s, l =>
    if l = [] then []
    else
      let x := l.getD (lcgStep s % l.length) 0
      x :: shuffleFuel fuel (lcgStep s) (l.erase x)

/-- Modelled from the spec: the seeded permutation of the eligible set
performed at the start of each coverage cycle (§4.4). -/
def shuffle (s : Nat) (l : List Nat) : List Nat := shuffleFuel l.length s l

theorem shuffleFuel_perm : ∀ (fuel s : Nat) (l : List Nat),
    l.length ≤ fuel → (shuffleFuel fuel s l).Perm l := by
  intro fuel
  induction fuel with
  | zero =>
    intro s l hl
    rw [Nat.le_zero] at hl
    rw [List.length_eq_zero] at hl
    subst hl
    simp [shuffleFuel]
  | succ n ih =>
    intro s l hl
    rw [shuffleFuel]
    split
    case isTrue h => subst h; simp
    case isFalse h =>
      have hpos : 0 < l.length := List.length_pos.mpr h
      have hidx : lcgStep s % l.length < l.length := Nat.mod_lt _ hpos
      have hmem : l.getD (lcgStep s % l.length) 0 ∈ l := by
        rw [List.getD_eq_getElem?_getD, List.getElem?_eq_getElem hidx]
        exact List.getElem_mem hidx
      have herase : (l.erase (l.getD (lcgStep s % l.length) 0)).length ≤ n := by
        rw [List.length_erase_of_mem hmem]
        omega
      exact ((ih (lcgStep s) _ herase).cons _).trans
        (List.perm_cons_erase hmem).symm

theorem shuffle_perm (s : Nat) (l : List Nat) : (shuffle s l).Perm l :=
  shuffleFuel_perm l.length s l (Nat.le_refl _)

/-- Modelled from the spec: the partition of one coverage cycle's
shuffled order into consecutive batches of `b + 1` positions (the last
batch possibly smaller), as drawn by successive `fetch batch i` calls
(§4.4, §4.6).  The batch size is `b + 1` so that it is positive by
construction. -/
def batchChunksFuel : Nat → Nat → List Nat → List (List Nat)
  | 0, _, _ => []
  | fuel + 1, b, l =>
    match l with
    | [] => []
    | _ :: _ => l.take (b + 1) :: batchChunksFuel fuel b (l.drop (b + 1))

/-- Modelled from the spec: the successive batches of one coverage
cycle under `same_samples=False`, with batch size `b + 1`. -/
def cycleBatches (seed b : Nat) (eligible : List Nat) : List (List Nat) :=
  batchChunksFuel (shuffle seed eligible).length b (shuffle seed eligible)

theorem batchChunksFuel_flatten : ∀ (fuel b : Nat) (l : List Nat),
    l.length ≤ fuel → (batchChunksFuel fuel b l).flatten = l := by
  intro fuel
  induction fuel with
  | zero =>
    intro b l hl
    rw [Nat.le_zero] at hl
    rw [List.length_eq_zero] at hl
    subst hl
    simp [batchChunksFuel]
  | succ n ih =>
    intro b l hl
    match l with
    | [] => simp [batchChunksFuel]
    | x :: xs =>
      rw [batchChunksFuel]
      have hdrop : (List.drop (b + 1) (x :: xs)).length ≤ n := by
        rw [List.length_drop]
        simp only [List.length_cons] at hl ⊢
        omega
      rw [List.flatten_cons, ih b _ hdrop, List.take_append_drop]

/-- C6: with `same_samples=False`, the positions drawn across the
consecutive batches of one coverage cycle are a permutation of the
eligible set: when the eligible positions are distinct, every eligible
position is drawn exactly once before the cycle completes, and no drawn
position repeats. -/
theorem coverage_cycle_no_replacement (seed b : Nat) (eligible : List Nat)
    (hnd : eligible.Nodup) :
    ((cycleBatches seed b eligible).flatten).Perm eligible ∧
    ((cycleBatches seed b eligible).flatten).Nodup ∧
    ∀ x ∈ eligible, ((cycleBatches seed b eligible).flatten).count x = 1 := by
  have hperm : ((cycleBatches seed b eligible).flatten).Perm eligible := by
    rw [cycleBatches, batchChunksFuel_flatten _ _ _ (Nat.le_refl _)]
    exact shuffle_perm seed eligible
  have hnd2 : ((cycleBatches seed b eligible).flatten).Nodup :=
    hperm.nodup_iff.mpr hnd
  refine ⟨hperm, hnd2, fun x hx => ?_⟩
  rw [hperm.count_eq]
  exact List.count_eq_one_of_mem hnd hx

/-- Closed instance of C6: ten eligible positions drawn in batches of
three cover all ten exactly once within one cycle. -/
theorem coverage_cycle_witness :
    ((cycleBatches 0 2 [0, 1, 2, 3, 4, 5, 6, 7, 8, 9]).flatten).Perm
        [0, 1, 2, 3, 4, 5, 6, 7, 8, 9] ∧
    ((cycleBatches 0 2 [0, 1, 2, 3, 4, 5, 6, 7, 8, 9]).flatten).Nodup ∧
    ∀ x ∈ [0, 1, 2, 3, 4, 5, 6, 7, 8, 9],
      ((cycleBatches 0 2 [0, 1, 2, 3, 4, 5, 6, 7, 8, 9]).flatten).count x = 1 :=
  coverage_cycle_no_replacement 0 2 [0, 1, 2, 3, 4, 5, 6, 7, 8, 9] (by decide)

/-- Modelled from the spec: a freshly constructed generator instance
(§4.6).  The `instanceId` distinguishes independent constructions (runs)
and plays no role in sampling; all sampling state is derived from the
construction parameters and the seed. -/
structure GeneratorInstance where
  instanceId : Nat
  seed : Nat
  eligible : List Nat
  batch_size : Nat
  winsize : Nat

/-- Modelled from the spec: construction of a generator instance for a
given run. -/
def constructGenerator (instanceId seed : Nat) (eligible : List Nat)
    (batch_size winsize : Nat) : GeneratorInstance :=
  { instanceId := instanceId, seed := seed, eligible := eligible,
    batch_size := batch_size, winsize := winsize }

/-- Modelled from the spec: the positions drawn for batch 0 — the first
`batch_size` entries of the seeded shuffle of the eligible set
(§4.4). -/
def drawnPositions0 (g : GeneratorInstance) : List Nat :=
  (shuffle g.seed g.eligible).take g.batch_size

/-- Modelled from the spec: §4.5 BatchAssembler — the window of length
`winsize` starting `winsize / 2` before each drawn center position,
extracted from the read-only merged data array. -/
def assembleWindows (data : List Nat) (winsize : Nat)
    (positions : List Nat) : List (List Nat) :=
  positions.map (fun p => (data.drop (p - winsize / 2)).take winsize)

/-- Modelled from the spec: the full output of "fetch batch 0" — the
drawn positions and the assembled window tensor (§4.6, §8). -/
def fetchBatch0 (g : GeneratorInstance) (data : List Nat) :
    List Nat × List (List Nat) :=
  (drawnPositions0 g, assembleWindows data g.winsize (drawnPositions0 g))

/-- C7: fixing a seed and re-running "fetch batch 0" from a freshly
constructed generator reproduces identical drawn positions and output
tensors: two independently constructed generator instances with the
same construction parameters and seed draw the same batch-0 positions
and assemble the same windows, whatever distinguishes the two runs. -/
theorem fixed_seed_reproducible (runA runB seed : Nat)
    (eligible : List Nat) (batch_size winsize : Nat) (data : List Nat) :
    fetchBatch0 (constructGenerator runA seed eligible batch_size winsize) data =
      fetchBatch0 (constructGenerator runB seed eligible batch_size winsize) data :=
  rfl

end TrainProfile
